import Mathlib

/-!
Shallow embedding of the MultiVeniceTool repository, covering the parts the
frozen claims are about:

* `src/testgpt/MultiVeniceTool.py` — the Flask multi-camera dispatcher:
  `load_config`, `resolve_button_targets`, `send_camera_request`,
  `api_run_button`, `api_config`, `api_reload_config`.
* `src/MultiVeniceTool.py` — the desktop app: `ConfigManager.load_cameras`
  and `BrowserManager.connect_camera`.

Modelling conventions:
* Parsed YAML/JSON values are an inductive `Val`; Python truthiness, `dict.get`,
  `dict[k]`, `str()`, `int()` and iteration are embedded as total or
  `Except`-valued functions mirroring which operations can raise.
* Network and browser I/O is a parameter (an oracle function), so the pure
  control flow of the source is what the theorems are about.
* CPython `set` iteration order is hash-based and not specified by the source;
  converting a set to a list is therefore parametrised by an enumeration
  function that may return the set's elements in any order (`PySetIter`).
* Floats occur only as the desktop app's `zoom`; no claim depends on float
  arithmetic, so numeric scalars are modelled as integers and `float(x)` is
  modelled by its success/failure behaviour only.
-/

set_option linter.unusedVariables false

namespace MVT

/-- Values of the parsed YAML/JSON configuration, as Python holds them. -/
inductive Val where
  | none
  | bool (b : Bool)
  | int (n : Int)
  | str (s : String)
  | list (xs : List Val)
  | dict (kvs : List (String × Val))

/-- The Python exceptions distinguished by the embedded code paths. -/
inductive PyErr where
  | attrError
  | typeError
  | valueError
  | keyError (k : String)
  | runtimeError (msg : String)
deriving DecidableEq

/-- Python truthiness (`bool(x)`). -/
def pyTruthy : Val → Bool
  | .none => false
  | .bool b => b
  | .int n => n != 0
  | .str s => !(s == "")
  | .list xs => !xs.isEmpty
  | .dict kvs => !kvs.isEmpty

/-- `a or b`: the left operand if truthy, otherwise the right one. -/
def pyOr (a b : Val) : Val := if pyTruthy a then a else b

/-- First-match association-list lookup; the model of Python `dict` access
(keys of a parsed mapping are unique, so first match is the match). -/
def alookup {α : Type} : List (String × α) → String → Option α
  | [], _ => none
  | (k, v) :: rest, key => if k = key then some v else alookup rest key

/-- `d[k] = v` on the association-list model of a Python dict: overwrite in
place when the key exists, append otherwise (insertion order preserved). -/
def dictInsert {α : Type} : List (String × α) → String → α → List (String × α)
  | [], k, v => [(k, v)]
  | (k0, v0) :: rest, k, v =>
      if k0 = k then (k0, v) :: rest else (k0, v0) :: dictInsert rest k v

/-- `x.get(key, default)`: AttributeError when the receiver is not a dict. -/
def pyGet (v : Val) (key : String) (dflt : Val) : Except PyErr Val :=
  match v with
  | .dict kvs => .ok ((alookup kvs key).getD dflt)
  | _ => .error .attrError

/-- `x[key]`: KeyError when the key is missing, TypeError when the receiver
is not a dict. -/
def pyItem (v : Val) (key : String) : Except PyErr Val :=
  match v with
  | .dict kvs =>
      match alookup kvs key with
      | some x => .ok x
      | Option.none => .error (.keyError key)
  | _ => .error .typeError

/-- `s.lower()` / `s.upper()` char-wise; the source only lowercases ASCII
identifiers and command words.  (Implemented over the character list so that
concrete registries evaluate inside the kernel.) -/
def lowerStr (s : String) : String := String.mk (s.toList.map Char.toLower)

def upperStr (s : String) : String := String.mk (s.toList.map Char.toUpper)

/-- `s.startswith(pre)`, over character lists. -/
def strStartsWith (s pre : String) : Bool := pre.toList.isPrefixOf s.toList

/-- `s[:n]`, over character lists. -/
def strTake (s : String) (n : Nat) : String := String.mk (s.toList.take n)

/-- Whitespace-stripping (`str.strip()` semantics for the usual blanks). -/
def trimStr (s : String) : String :=
  String.mk (((s.toList.dropWhile Char.isWhitespace).reverse.dropWhile
    Char.isWhitespace).reverse)

def digitsToNat (l : List Char) : Nat :=
  l.foldl (fun n c => n * 10 + (c.toNat - ('0').toNat)) 0

/-- `int(s)` for strings: optional surrounding whitespace, optional sign,
then decimal digits. -/
def pyIntOfStr (s : String) : Option Int :=
  match (trimStr s).toList with
  | [] => Option.none
  | '+' :: rest =>
      if rest ≠ [] ∧ rest.all Char.isDigit then some (Int.ofNat (digitsToNat rest))
      else Option.none
  | '-' :: rest =>
      if rest ≠ [] ∧ rest.all Char.isDigit then some (-(Int.ofNat (digitsToNat rest)))
      else Option.none
  | l =>
      if l.all Char.isDigit then some (Int.ofNat (digitsToNat l)) else Option.none

/-- A string method on an arbitrary value: AttributeError unless it is a str. -/
def asStr (v : Val) : Except PyErr String :=
  match v with
  | .str s => .ok s
  | _ => .error .attrError

/-- `str(x)`. Renderings of containers are abbreviated: the resolver compares
`str(t).lower()` against device ids and names, which are scalar strings, and
no claim depends on the exact rendering of a list or dict target entry. -/
def pyStr : Val → String
  | .none => "None"
  | .bool b => if b then "True" else "False"
  | .int n => toString n
  | .str s => s
  | .list _ => "<list>"
  | .dict _ => "<dict>"

/-- `int(x)`: ints and bools convert, strings parse or raise ValueError,
everything else raises TypeError. -/
def pyInt : Val → Except PyErr Int
  | .int n => .ok n
  | .bool b => .ok (if b then 1 else 0)
  | .str s =>
      match pyIntOfStr s with
      | some n => .ok n
      | Option.none => .error .valueError
  | _ => .error .typeError

/-- `for x in v`: lists iterate their elements, strings their characters,
dicts their keys; other values raise TypeError. -/
def pyIter : Val → Except PyErr (List Val)
  | .list xs => .ok xs
  | .str s => .ok (s.toList.map (fun c => Val.str (String.mk [c])))
  | .dict kvs => .ok (kvs.map (fun kv => Val.str kv.1))
  | _ => .error .typeError

/-- `s.rstrip("/")` after `(x or "")`: AttributeError unless the truthy value
is a str. -/
def rstripSlash (s : String) : String :=
  String.mk (((s.toList.reverse).dropWhile (fun c => c == '/')).reverse)

def isSlugChar (c : Char) : Bool :=
  (('a' ≤ c) && (c ≤ 'z')) || (('0' ≤ c) && (c ≤ '9'))

/-- One step of replacing each maximal run of non-`[a-z0-9]` chars by `-`:
the Bool records whether the previous char was already replaced. -/
def squashStep (acc : List Char × Bool) (c : Char) : List Char × Bool :=
  if isSlugChar c then (acc.1 ++ [c], false)
  else if acc.2 then acc
  else (acc.1 ++ ['-'], true)

def stripDashes (l : List Char) : List Char :=
  ((l.dropWhile (fun c => c == '-')).reverse.dropWhile (fun c => c == '-')).reverse

/-- `re.sub(r"[^a-z0-9]+", "-", name.lower()).strip("-") or "item"`
(`str.lower` modelled char-wise; the configs in the claims are ASCII). -/
def slugify (name : String) : String :=
  let lowered := name.toList.map Char.toLower
  let squashed := (lowered.foldl squashStep ([], false)).1
  let stripped := stripDashes squashed
  if stripped.isEmpty then "item" else String.mk stripped

/-- `s.add(x)` on the insertion-ordered canonical contents of a Python set. -/
def pySetAdd (l : List String) (x : String) : List String :=
  if x ∈ l then l else l ++ [x]

/-- CPython iterates a `set` in hash order, which the source does not control:
`list(s)` is modelled by an arbitrary enumeration that returns exactly the
set's elements, i.e. a permutation of the canonical contents list. -/
structure PySetIter where
  enum : List String → List String
  perm : ∀ l : List String, (enum l).Perm l

/-- The identity enumeration (one possible hash order). -/
def enumId : PySetIter := ⟨fun l => l, fun l => List.Perm.refl l⟩

/-- The reversing enumeration (another possible hash order). -/
def enumRev : PySetIter := ⟨fun l => l.reverse, fun l => l.reverse_perm⟩

/-! ## Data model of the Flask dispatcher (src/testgpt/MultiVeniceTool.py) -/

/-- One configured camera, as built by `load_config` (lines 82-92).
`username`/`password` keep the raw config values (which may be `None`);
the source calls `.lower()` on id and name during target resolution, so a
config whose (truthy) id or name is not a string crashes there — the model
rejects such values at build time instead, since no claim depends on them. -/
structure Camera where
  id : String
  name : String
  url : String
  gui_path : String
  auth_type : String
  username : Val
  password : Val

/-- Normalized `targets` of a button (lines 109-116): the sentinel `"all"`
or an explicit list of raw target entries. -/
inductive TargetsSpec where
  | all
  | explicit (ts : List Val)

/-- The normalized `request` sub-dict of a button (lines 123-128).
`method` was uppercased at load; `path`, `params` and `data` keep the raw
values, exactly as the source stores them. -/
structure ReqCfg where
  method : String
  path : Val
  params : Val
  data : Val

/-- One configured button (lines 118-129). -/
structure Button where
  id : String
  label : String
  color : Val
  targets : TargetsSpec
  request : ReqCfg

structure Settings where
  port : Int
  command_delay_ms : Int
deriving DecidableEq

/-- The `CONFIG` global (lines 134-141). -/
structure Config where
  settings : Settings
  cameras : List Camera
  buttons : List Button

/-- The module-level mutable state of the Flask app: `PORT`, `CONFIG`,
`CAMERAS_BY_ID`, `BUTTONS_BY_ID` (lines 28-31). -/
structure SrvState where
  port : Int
  config : Config
  camerasById : List (String × Camera)
  buttonsById : List (String × Button)

/-- The state at process start, before any `load_config`. -/
def initState : SrvState :=
  { port := 8080
    config := { settings := { port := 8080, command_delay_ms := 0 }, cameras := [], buttons := [] }
    camerasById := []
    buttonsById := [] }

/-- The global auth defaults computed on lines 54-57. -/
structure Globals where
  authType : String
  user : Val
  pass : Val

/-! ## load_config (lines 41-143) -/

/-- One iteration of the camera loop (lines 63-93).  `.ok none` is the
`continue` of a skipped entry; `.error` is an exception escaping the loop. -/
def processCamEntry (g : Globals) (v : Val) : Except PyErr (Option Camera) :=
  match pyGet v "name" .none with
  | .error e => .error e
  | .ok name_v =>
  if !pyTruthy name_v then .ok Option.none else
  match asStr name_v with
  | .error e => .error e
  | .ok name =>
  match pyGet v "id" .none with
  | .error e => .error e
  | .ok id_v =>
  match (if pyTruthy id_v then asStr id_v else .ok (slugify name)) with
  | .error e => .error e
  | .ok cid =>
  match pyGet v "url" .none with
  | .error e => .error e
  | .ok url_v =>
  match (asStr (pyOr url_v (.str ""))).map rstripSlash with
  | .error e => .error e
  | .ok url =>
  if url = "" then .ok Option.none else
  match pyGet v "gui_path" .none with
  | .error e => .error e
  | .ok gp_v =>
  match asStr (pyOr gp_v (.str "/")) with
  | .error e => .error e
  | .ok gp0 =>
  let gui_path := if strStartsWith gp0 "/" then gp0 else "/" ++ gp0
  match pyGet v "auth" .none with
  | .error e => .error e
  | .ok auth_v =>
  let cam_auth := pyOr auth_v (.dict [])
  match pyGet cam_auth "type" .none with
  | .error e => .error e
  | .ok at_v =>
  match (asStr (pyOr at_v (.str g.authType))).map lowerStr with
  | .error e => .error e
  | .ok auth_type =>
  match pyGet cam_auth "username" g.user with
  | .error e => .error e
  | .ok username =>
  match pyGet cam_auth "password" g.pass with
  | .error e => .error e
  | .ok password =>
  .ok (some { id := cid, name := name, url := url, gui_path := gui_path,
              auth_type := auth_type, username := username, password := password })

/-- The camera loop itself: threads the local `cameras` list and the global
`CAMERAS_BY_ID` dict; an exception stops the loop with the partial dict. -/
def buildCameras (g : Globals) :
    List Val → List Camera → List (String × Camera) →
    List Camera × List (String × Camera) × Option PyErr
  | [], acc, byId => (acc, byId, Option.none)
  | v :: rest, acc, byId =>
      match processCamEntry g v with
      | .error e => (acc, byId, some e)
      | .ok Option.none => buildCameras g rest acc byId
      | .ok (some c) => buildCameras g rest (acc ++ [c]) (dictInsert byId c.id c)

/-- `targets` normalization (lines 109-116): a string equal (case-insensitively)
to "all" becomes the sentinel, any other string a one-element list, and
`list(targets)` iterates the value (raising TypeError on non-iterables). -/
def normTargets : Val → Except PyErr TargetsSpec
  | .str s => .ok (if lowerStr s = "all" then .all else .explicit [.str s])
  | .list xs => .ok (.explicit xs)
  | .dict kvs => .ok (.explicit (kvs.map (fun kv => Val.str kv.1)))
  | _ => .error .typeError

/-- One iteration of the button loop (lines 99-132). -/
def processBtnEntry (v : Val) : Except PyErr (Option Button) :=
  match pyGet v "label" .none with
  | .error e => .error e
  | .ok label_v =>
  if !pyTruthy label_v then .ok Option.none else
  match asStr label_v with
  | .error e => .error e
  | .ok label =>
  match pyGet v "id" .none with
  | .error e => .error e
  | .ok id_v =>
  match (if pyTruthy id_v then asStr id_v else .ok (slugify label)) with
  | .error e => .error e
  | .ok bid =>
  match pyGet v "color" .none with
  | .error e => .error e
  | .ok color =>
  match pyGet v "targets" (.str "all") with
  | .error e => .error e
  | .ok targets_v =>
  match pyGet v "request" .none with
  | .error e => .error e
  | .ok req_v =>
  let req := pyOr req_v (.dict [])
  match normTargets targets_v with
  | .error e => .error e
  | .ok targets =>
  match pyGet req "method" .none with
  | .error e => .error e
  | .ok method_v =>
  match (asStr (pyOr method_v (.str "GET"))).map upperStr with
  | .error e => .error e
  | .ok method =>
  match pyGet req "path" .none with
  | .error e => .error e
  | .ok path_v =>
  match pyGet req "params" .none with
  | .error e => .error e
  | .ok params_v =>
  match pyGet req "data" .none with
  | .error e => .error e
  | .ok data_v =>
  match pyGet req "body" .none with
  | .error e => .error e
  | .ok body_v =>
  .ok (some { id := bid, label := label, color := color, targets := targets,
              request := { method := method, path := pyOr path_v (.str "/"),
                           params := pyOr params_v (.dict []),
                           data := pyOr data_v (pyOr body_v .none) } })

/-- The button loop, threading `buttons` and the global `BUTTONS_BY_ID`. -/
def buildButtons :
    List Val → List Button → List (String × Button) →
    List Button × List (String × Button) × Option PyErr
  | [], acc, byId => (acc, byId, Option.none)
  | v :: rest, acc, byId =>
      match processBtnEntry v with
      | .error e => (acc, byId, some e)
      | .ok Option.none => buildButtons rest acc byId
      | .ok (some b) => buildButtons rest (acc ++ [b]) (dictInsert byId b.id b)

/-- The outcome of one `load_config` run, classified by which globals had
already been mutated when an exception (if any) was raised:
* `earlyErr` — missing file, parse failure, or a raise on lines 50-51
  before any global assignment;
* `portErr`  — a raise on lines 52-57, after `PORT` was assigned;
* `camsErr`  — a raise inside the camera loop (lines 63-93), after
  `CAMERAS_BY_ID` was cleared and partially rebuilt;
* `btnsErr`  — a raise inside the button loop (lines 99-132), after
  `CAMERAS_BY_ID` was fully replaced and `BUTTONS_BY_ID` cleared and
  partially rebuilt;
* `success`  — the whole build ran, `CONFIG` is assigned last (lines 134-141). -/
inductive LoadOut where
  | earlyErr (e : PyErr)
  | portErr (port : Int) (e : PyErr)
  | camsErr (port : Int) (camsById : List (String × Camera)) (e : PyErr)
  | btnsErr (port : Int) (camsById : List (String × Camera))
      (btnsById : List (String × Button)) (e : PyErr)
  | success (port delay : Int) (cameras : List Camera)
      (camsById : List (String × Camera)) (buttons : List Button)
      (btnsById : List (String × Button))

/-- `PORT = int(settings.get("port", 8080))` (line 51). -/
def parsePort (settings : Val) : Except PyErr Int :=
  (pyGet settings "port" (.int 8080)).bind pyInt

/-- `command_delay_ms = int(settings.get("command_delay_ms", 0))` (line 52). -/
def parseDelay (settings : Val) : Except PyErr Int :=
  (pyGet settings "command_delay_ms" (.int 0)).bind pyInt

/-- The global auth defaults (lines 54-57). -/
def parseGlobalsAuth (settings : Val) : Except PyErr Globals :=
  match pyGet settings "auth" .none with
  | .error e => .error e
  | .ok gauth_v =>
  let gauth := pyOr gauth_v (.dict [])
  match pyGet gauth "type" .none with
  | .error e => .error e
  | .ok gtype_v =>
  match (asStr (pyOr gtype_v (.str "digest"))).map lowerStr with
  | .error e => .error e
  | .ok gtype =>
  match pyGet gauth "username" .none with
  | .error e => .error e
  | .ok guser =>
  match pyGet gauth "password" .none with
  | .error e => .error e
  | .ok gpass => .ok { authType := gtype, user := guser, pass := gpass }

/-- The camera phase (lines 59-93), run after `CAMERAS_BY_ID` was cleared:
evaluating the loop header can itself raise (with the dict left empty). -/
def camsPhase (g : Globals) (raw : Val) :
    List Camera × List (String × Camera) × Option PyErr :=
  match (pyGet raw "cameras" (.list [])).bind pyIter with
  | .error e => ([], [], some e)
  | .ok entries => buildCameras g entries [] []

/-- The button phase (lines 95-132), run after `BUTTONS_BY_ID` was cleared. -/
def btnsPhase (raw : Val) :
    List Button × List (String × Button) × Option PyErr :=
  match (pyGet raw "buttons" (.list [])).bind pyIter with
  | .error e => ([], [], some e)
  | .ok entries => buildButtons entries [] []

/-- The pure part of `load_config`: a function of the config resource only.
`fileExists` models the `os.path.exists` check, `parsed` the result of
`yaml.safe_load` (`.error` = unreadable/unparsable file). -/
def load_core (fileExists : Bool) (parsed : Except PyErr Val) : LoadOut :=
  if !fileExists then .earlyErr (.runtimeError "config.yaml not found") else
  match parsed with
  | .error e => .earlyErr e
  | .ok rawv =>
  -- `raw = yaml.safe_load(f) or {}`; `settings = raw.get("settings", {}) or {}`
  match pyGet (pyOr rawv (.dict [])) "settings" (.dict []) with
  | .error e => .earlyErr e
  | .ok settings_v =>
  match parsePort (pyOr settings_v (.dict [])) with
  | .error e => .earlyErr e
  | .ok port =>
  match parseDelay (pyOr settings_v (.dict [])) with
  | .error e => .portErr port e
  | .ok delay =>
  match parseGlobalsAuth (pyOr settings_v (.dict [])) with
  | .error e => .portErr port e
  | .ok g =>
  match camsPhase g (pyOr rawv (.dict [])) with
  | (_, camsById, some e) => .camsErr port camsById e
  | (cameras, camsById, Option.none) =>
  match btnsPhase (pyOr rawv (.dict [])) with
  | (_, btnsById, some e) => .btnsErr port camsById btnsById e
  | (buttons, btnsById, Option.none) =>
  .success port delay cameras camsById buttons btnsById

/-- `load_config` as a state transition on the module globals: the returned
state is exactly what the globals hold when the call returns or the
exception escapes. -/
def load_config (fileExists : Bool) (parsed : Except PyErr Val) (s : SrvState) :
    SrvState × Option PyErr :=
  match load_core fileExists parsed with
  | .earlyErr e => (s, some e)
  | .portErr p e => ({ s with port := p }, some e)
  | .camsErr p camsById e => ({ s with port := p, camerasById := camsById }, some e)
  | .btnsErr p camsById btnsById e =>
      ({ s with port := p, camerasById := camsById, buttonsById := btnsById }, some e)
  | .success p d cameras camsById buttons btnsById =>
      ({ port := p
         config := { settings := { port := p, command_delay_ms := d },
                     cameras := cameras, buttons := buttons }
         camerasById := camsById
         buttonsById := btnsById }, Option.none)

/-- The JSON body of `POST /api/reload_config` (lines 312-322). -/
inductive ReloadResp where
  | okTrue
  | errResp (msg : String)
deriving DecidableEq

def pyErrStr : PyErr → String
  | .attrError => "AttributeError"
  | .typeError => "TypeError"
  | .valueError => "ValueError"
  | .keyError k => k
  | .runtimeError m => m

/-- `api_reload_config` (lines 312-322): runs `load_config`, catching any
exception; the mutated globals persist either way. -/
def api_reload_config (fileExists : Bool) (parsed : Except PyErr Val)
    (s : SrvState) : SrvState × ReloadResp :=
  match load_config fileExists parsed s with
  | (st, Option.none) => (st, .okTrue)
  | (st, some e) => (st, .errResp (pyErrStr e))

/-! ## Target resolution (lines 200-221) -/

/-- `cam["id"].lower() == t_lower or cam["name"].lower() == t_lower`. -/
def targetMatches (cam : Camera) (t : Val) : Bool :=
  (lowerStr cam.id == lowerStr (pyStr t)) || (lowerStr cam.name == lowerStr (pyStr t))

/-- The inner loop of lines 209-213: add every matching camera's id. -/
def addMatches (cams : List Camera) (t : Val) (acc : List String) : List String :=
  cams.foldl (fun a cam => if targetMatches cam t then pySetAdd a cam.id else a) acc

/-- The canonical contents of `allowed_ids` (lines 204-213): for the `"all"`
sentinel the keys of `CAMERAS_BY_ID`; otherwise the ids collected by the
nested loops. -/
def allowedIds (st : SrvState) (btn : Button) : List String :=
  match btn.targets with
  | .all => st.camerasById.map Prod.fst
  | .explicit ts => ts.foldl (fun acc t => addMatches st.config.cameras t acc) []

/-- `target_ids` (lines 215-219): intersect with the caller set when it is
truthy, then convert the set to a list in the interpreter's iteration order. -/
def resolveTargetIds (E : PySetIter) (st : SrvState) (btn : Button)
    (requestedIds : List String) : List String :=
  if requestedIds.isEmpty then E.enum (allowedIds st btn)
  else E.enum ((allowedIds st btn).filter (fun x => decide (x ∈ requestedIds)))

/-- `Except`-valued `mapM`, mirroring a Python loop that stops at the first
uncaught exception. -/
def exMapM {α β : Type} (f : α → Except PyErr β) : List α → Except PyErr (List β)
  | [] => .ok []
  | a :: l =>
      match f a with
      | .error e => .error e
      | .ok b =>
          match exMapM f l with
          | .error e => .error e
          | .ok bs => .ok (b :: bs)

/-- `resolve_button_targets` (line 221): the final comprehension
`[CAMERAS_BY_ID[cid] for cid in target_ids]` raises KeyError on an id that
is not a key of the index. -/
def resolve_button_targets (E : PySetIter) (st : SrvState) (btn : Button)
    (requestedIds : List String) : Except PyErr (List Camera) :=
  exMapM (fun cid =>
      match alookup st.camerasById cid with
      | some c => .ok c
      | Option.none => .error (.keyError cid))
    (resolveTargetIds E st btn requestedIds)

/-! ## send_camera_request (lines 146-197) and the dispatch loop -/

/-- The auth object `build_auth` returns (lines 146-155). -/
inductive AuthCred where
  | basic (user pass : Val)
  | digest (user pass : Val)

def build_auth (cam : Camera) : Option AuthCred :=
  if !pyTruthy cam.username || !pyTruthy cam.password then Option.none
  else if lowerStr cam.auth_type = "basic" then some (.basic cam.username cam.password)
  else some (.digest cam.username cam.password)

/-- The request `requests.request(...)` is given (lines 175-182). -/
structure NetReq where
  method : String
  url : String
  params : Val
  data : Val
  auth : Option AuthCred

/-- What the network does with one request: a response with a status code and
body text, or an exception (connection error, timeout, ...). -/
inductive NetOutcome where
  | resp (status : Int) (text : String)
  | exc (msg : String)
deriving DecidableEq

/-- `resp.ok` in the requests library: status code below 400. -/
def respOk (status : Int) : Bool := status < 400

/-- One per-device result dict (lines 183-197). -/
structure DeviceResult where
  camera_id : String
  camera_name : String
  ok : Bool
  status_code : Option Int
  error : Option String
deriving DecidableEq

/-- An outcome the source records as a failure: an exception, or a response
whose status is not a success. -/
def failureOutcome : NetOutcome → Bool
  | .exc _ => true
  | .resp status _ => !respOk status

/-- `send_camera_request`'s `path` value after `or "/"`: the source calls
`.startswith` on it outside the `try` block, so a truthy non-string path
raises before the guarded request. -/
def reqPathStr (req : ReqCfg) : Option String :=
  match pyOr req.path (.str "/") with
  | .str s => some s
  | _ => Option.none

/-- The `NetReq` lines 163-172 construct from a camera and a request config
whose path string is `p`. -/
def mkNetReq (cam : Camera) (req : ReqCfg) (p : String) : NetReq :=
  let path := if strStartsWith p "/" then p else "/" ++ p
  { method := upperStr req.method
    url := cam.url ++ path
    params := pyOr req.params (.dict [])
    data := req.data
    auth := build_auth cam }

/-- Lines 174-197: classify the network outcome into a result dict; the
`try`/`except` makes this total. -/
def classify (o : NetOutcome) (cam : Camera) : DeviceResult :=
  match o with
  | .resp status text =>
      { camera_id := cam.id, camera_name := cam.name, ok := respOk status,
        status_code := some status,
        error := if respOk status then Option.none else some (strTake text 200) }
  | .exc m =>
      { camera_id := cam.id, camera_name := cam.name, ok := false,
        status_code := Option.none, error := some m }

/-- `send_camera_request` once the path string is known. -/
def sendCore (net : NetReq → NetOutcome) (cam : Camera) (req : ReqCfg)
    (p : String) : DeviceResult :=
  classify (net (mkNetReq cam req p)) cam

/-- `send_camera_request` (lines 158-197): the URL construction before the
`try` can raise; everything inside the `try` is classified per device. -/
def send_camera_request (net : NetReq → NetOutcome) (cam : Camera)
    (req : ReqCfg) : Except PyErr DeviceResult :=
  match pyOr req.path (.str "/") with
  | .str p => .ok (sendCore net cam req p)
  | _ => .error .attrError

/-- The dispatch loop of `api_run_button` (lines 299-306): one result per
target, in order; the inter-device `time.sleep` does not affect results. -/
def runButtonResults (net : NetReq → NetOutcome) (req : ReqCfg)
    (targets : List Camera) : Except PyErr (List DeviceResult) :=
  exMapM (fun cam => send_camera_request net cam req) targets

/-! ## api_run_button (lines 274-309) -/

/-- The HTTP response of `api_run_button`: a 400 with an error message, a 500
from an uncaught exception, or the 200 aggregated result. -/
inductive ApiResp where
  | badRequest (msg : String)
  | serverError (e : PyErr)
  | okResp (allOk : Bool) (buttonId : String) (results : List DeviceResult)
deriving DecidableEq

/-- `not button_id or button_id not in BUTTONS_BY_ID` (line 288), for values
on which it evaluates without raising (unhashable values raise instead). -/
def unknown_bid (st : SrvState) : Val → Bool
  | v =>
    if !pyTruthy v then true
    else
      match v with
      | .str s => (alookup st.buttonsById s).isNone
      | .list _ => false
      | .dict _ => false
      | _ => true

/-- `api_run_button` (lines 274-309).  `buttonIdVal` is `data.get("button_id")`
and `targetIds` is `data.get("target_ids") or []` (the claims only involve
string-list caller ids, so that field is typed). -/
def api_run_button (E : PySetIter) (net : NetReq → NetOutcome) (st : SrvState)
    (buttonIdVal : Val) (targetIds : List String) : ApiResp :=
  if !pyTruthy buttonIdVal then .badRequest "Unknown button_id"
  else
    match buttonIdVal with
    | .list _ => .serverError .typeError
    | .dict _ => .serverError .typeError
    | .str s =>
        (match alookup st.buttonsById s with
         | Option.none => .badRequest "Unknown button_id"
         | some btn =>
             match resolve_button_targets E st btn targetIds with
             | .error e => .serverError e
             | .ok [] => .badRequest "No target cameras for this button"
             | .ok targets =>
                 match runButtonResults net btn.request targets with
                 | .error e => .serverError e
                 | .ok results => .okResp (results.all (fun r => r.ok)) s results)
    | _ => .badRequest "Unknown button_id"

/-! ## api_config (lines 238-271) -/

/-- A camera entry of the trimmed config: only id, name and the composed
gui url (lines 243-252). -/
structure PublicCamera where
  id : String
  name : String
  gui_url : String
deriving DecidableEq

/-- A button entry of the trimmed config (lines 254-263). -/
structure PublicButton where
  id : String
  label : String
  color : Val
  targets : TargetsSpec

/-- The whole `/api/config` payload (lines 265-271). -/
structure PublicConfig where
  settings : Settings
  cameras : List PublicCamera
  buttons : List PublicButton

/-- The sanitized per-camera entry (lines 245-252): id, name, gui url only. -/
def pubCam (cam : Camera) : PublicCamera :=
  { id := cam.id, name := cam.name, gui_url := cam.url ++ cam.gui_path }

/-- The sanitized per-button entry (lines 256-263). -/
def pubBtn (btn : Button) : PublicButton :=
  { id := btn.id, label := btn.label, color := btn.color, targets := btn.targets }

def api_config (st : SrvState) : PublicConfig :=
  { settings := st.config.settings
    cameras := st.config.cameras.map pubCam
    buttons := st.config.buttons.map pubBtn }

/-! ## ConfigManager.load_cameras (src/MultiVeniceTool.py, lines 51-82) -/

/-- A camera of the desktop app's data model.  `name` keeps the raw value
(the dataclass does not coerce it); `ip`/`username`/`password` go through
`str(...)`; `zoomRaw` keeps the value `float(...)` validated — no claim
depends on float arithmetic, only on whether the conversion raises. -/
structure TkCamera where
  name : Val
  ip : String
  username : String
  password : String
  zoomRaw : Val

/-- Split a character list at every dot. -/
def splitOnDot : List Char → List (List Char)
  | [] => [[]]
  | c :: rest =>
      if c == '.' then [] :: splitOnDot rest
      else
        match splitOnDot rest with
        | [] => [[c]]
        | h :: t => (c :: h) :: t

/-- An approximation of the strings `float(...)` accepts: optional sign,
digits with at most one dot.  Claims only need that well-formed entries do
not raise; exponent forms are not exercised by any claim. -/
def floatStrOk (s : String) : Bool :=
  let t := (trimStr s).toList
  let t := match t with
    | '+' :: rest => rest
    | '-' :: rest => rest
    | l => l
  match splitOnDot t with
  | [a] => (!a.isEmpty) && a.all Char.isDigit
  | [a, b] => ((!a.isEmpty) || (!b.isEmpty)) && a.all Char.isDigit && b.all Char.isDigit
  | _ => false

/-- `float(x)`: succeeds on numbers and parsable strings, raises ValueError
on other strings and TypeError on non-numeric values. -/
def pyFloatCheck : Val → Except PyErr Unit
  | .int _ => .ok ()
  | .bool _ => .ok ()
  | .str s => if floatStrOk s then .ok () else .error .valueError
  | _ => .error .typeError

/-- The `Camera(...)` construction of lines 71-77, with Python's left-to-right
argument evaluation: `name` get (with its index default), then the three
required subscripts, then the zoom conversion. -/
def processTkEntry (idx : Nat) (v : Val) : Except PyErr TkCamera :=
  match pyGet v "name" (.str ("Camera " ++ toString idx)) with
  | .error e => .error e
  | .ok name_v =>
  match pyItem v "ip" with
  | .error e => .error e
  | .ok ip_v =>
  match pyItem v "username" with
  | .error e => .error e
  | .ok user_v =>
  match pyItem v "password" with
  | .error e => .error e
  | .ok pass_v =>
  match pyGet v "zoom" (.int 1) with
  | .error e => .error e
  | .ok zoom_v =>
  match pyFloatCheck zoom_v with
  | .error e => .error e
  | .ok _ =>
      .ok { name := name_v, ip := pyStr ip_v, username := pyStr user_v,
            password := pyStr pass_v, zoomRaw := zoom_v }

/-- The entry loop of lines 69-81: `except KeyError` turns a missing required
field into a warning and skips the entry; any other exception propagates.
(Python renders `str(KeyError("ip"))` with quotes around the key; the quotes
are elided from the modelled message text.) -/
def loadCamerasLoop :
    List Val → Nat → List TkCamera → List String →
    Except PyErr (List TkCamera × List String)
  | [], _, cams, errs => .ok (cams, errs)
  | v :: rest, idx, cams, errs =>
      match processTkEntry idx v with
      | .ok c => loadCamerasLoop rest (idx + 1) (cams ++ [c]) errs
      | .error (.keyError k) =>
          loadCamerasLoop rest (idx + 1) cams
            (errs ++ ["Skipping camera #" ++ toString idx ++ ": missing " ++ k])
      | .error e => .error e

/-- `ConfigManager.load_cameras` (lines 51-82).  `readResult` models reading
and parsing the file: `.error msg` is the caught FileNotFoundError or
generic read failure, which yields no cameras and one error message. -/
def load_cameras (readResult : Except String Val) :
    Except PyErr (List TkCamera × List String) :=
  match readResult with
  | .error msg => .ok ([], [msg])
  | .ok datv =>
      let dat := pyOr datv (.dict [])
      match pyGet dat "cameras" (.list []) with
      | .error e => .error e
      | .ok cams_v =>
          match pyIter cams_v with
          | .error e => .error e
          | .ok entries => loadCamerasLoop entries 1 [] []

/-- A camera entry is a mapping. -/
def isDictV : Val → Bool
  | .dict _ => true
  | _ => false

/-- All three required fields of lines 73-75 are present. -/
def tkRequiredOk (v : Val) : Bool :=
  match v with
  | .dict kvs =>
      (alookup kvs "ip").isSome && (alookup kvs "username").isSome &&
        (alookup kvs "password").isSome
  | _ => false

/-- The `zoom` field (or its default) converts to a float without raising. -/
def tkZoomOk (v : Val) : Bool :=
  match v with
  | .dict kvs =>
      match pyFloatCheck ((alookup kvs "zoom").getD (.int 1)) with
      | .ok _ => true
      | .error _ => false
  | _ => false

/-! ## BrowserManager.connect_camera (src/MultiVeniceTool.py, lines 148-232) -/

/-- The per-camera connection fields of the desktop `Camera` dataclass:
the Playwright context and page handles, identified by the id of the
browser context that created them. -/
structure BCamera where
  name : String
  context : Option Nat
  page : Option Nat
deriving DecidableEq

/-- The `BrowserManager` state: whether the browser is started, a counter
identifying each context ever created (`new_context` calls), and the screen
geometry fields. -/
structure BState where
  browser : Bool
  nextId : Nat
  screenWidth : Nat
  screenHeight : Nat
  mainWindowPositioned : Bool
deriving DecidableEq

/-- The behaviour of the external browser engine during one call:
whether `page.reload` succeeds, whether `page.evaluate` (zoom) succeeds,
whether `page.goto` succeeds, and what the screen-size probe returns
(`none` = it raised; the source swallows that). -/
structure BEnv where
  reloadOk : Bool
  zoomEvalOk : Bool
  gotoOk : Bool
  screenInfo : Option (Nat × Nat)
deriving DecidableEq

/-- The result of `connect_camera`: the `(success, message)` pair plus the
updated manager and camera state. -/
structure ConnectOut where
  success : Bool
  message : String
  bst : BState
  cam : BCamera
deriving DecidableEq

/-- `_calculate_window_position` (lines 122-146); `int(x ** 0.5)` is the
floor square root for the window counts involved. -/
def calculate_window_position (screenW screenH idx total : Nat) :
    Nat × Nat × Nat × Nat :=
  let totalWindows := total + 1
  let gridCols := max 2 (Nat.sqrt totalWindows)
  let gridRows := (totalWindows + gridCols - 1) / gridCols
  let ww := screenW / gridCols
  let wh := screenH / gridRows
  let position := idx + 1
  let row := position / gridCols
  let col := position % gridCols
  (col * ww, row * wh, ww, wh)

/-- The full-reconnect path (lines 163-227): close the old context with
errors swallowed, clear the handles, create a new context (bumping the
context counter), attempt CDP window placement with errors swallowed,
load the page, apply the zoom, store the handles, and opportunistically
update the screen size. -/
def full_reconnect (env : BEnv) (bst : BState) (cam : BCamera)
    (idx total : Nat) : ConnectOut :=
  let cam1 : BCamera := { cam with context := Option.none, page := Option.none }
  let pos := calculate_window_position bst.screenWidth bst.screenHeight idx total
  let ctxId := bst.nextId
  let bst1 := { bst with nextId := bst.nextId + 1 }
  if !env.gotoOk then
    { success := false, message := "Failed to connect to " ++ cam.name,
      bst := bst1, cam := cam1 }
  else if !env.zoomEvalOk then
    { success := false, message := "Failed to connect to " ++ cam.name,
      bst := bst1, cam := cam1 }
  else
    let cam2 := { cam1 with context := some ctxId, page := some ctxId }
    let bst2 :=
      if !bst1.mainWindowPositioned then
        match env.screenInfo with
        | some wh => { bst1 with screenWidth := wh.1, screenHeight := wh.2 }
        | Option.none => bst1
      else bst1
    { success := true, message := "Connected to " ++ cam.name,
      bst := bst2, cam := cam2 }

/-- `BrowserManager.connect_camera` (lines 148-232).  Note the sense of the
source's `refresh` flag: `refresh=True` means "reuse the existing session via
a lightweight reload if possible", i.e. it is the NEGATION of the spec's
`forceRefresh`; `refresh=False` always tears down and reconnects. -/
def connect_camera (env : BEnv) (bst : BState) (cam : BCamera)
    (idx total : Nat) (refresh : Bool) : ConnectOut :=
  if !bst.browser then
    { success := false, message := "Browser not started", bst := bst, cam := cam }
  else if refresh && cam.page.isSome && cam.context.isSome then
    if env.reloadOk && env.zoomEvalOk then
      { success := true, message := "Refreshed " ++ cam.name, bst := bst, cam := cam }
    else full_reconnect env bst cam idx total
  else full_reconnect env bst cam idx total

/-! ## Fixtures, invariant predicates and canonical forms used by the theorems -/

/-- The registry invariant a successful build guarantees, stated over the
classified outcome. -/
def SuccessInv : LoadOut → Prop
  | .success _ _ cameras camsById _ _ =>
      (∀ x, x ∈ camsById.map Prod.fst ↔ ∃ c ∈ cameras, c.id = x) ∧
        (camsById.map Prod.fst).Nodup
  | _ => True

/-- A well-formed three-camera, one-button config. -/
def rawABC : Val := .dict
  [("cameras", .list
    [.dict [("name", .str "Alpha"), ("id", .str "a"), ("url", .str "http://a")],
     .dict [("name", .str "Bravo"), ("id", .str "b"), ("url", .str "http://b")],
     .dict [("name", .str "Charlie"), ("id", .str "c"), ("url", .str "http://c")]]),
   ("buttons", .list
    [.dict [("label", .str "Spotlight"), ("id", .str "spotlight"),
            ("targets", .list [.str "a", .str "c"])]])]

/-- The server state after loading `rawABC`. -/
def stABC : SrvState := (load_config true (.ok rawABC) initState).1

/-- The spec's example action: `targets=["a","c"]`. -/
def btnSpotlight : Button :=
  { id := "spotlight", label := "Spotlight", color := .none,
    targets := .explicit [.str "a", .str "c"],
    request := { method := "GET", path := .str "/", params := .dict [], data := .none } }

/-- An action targeting the whole registry. -/
def btnRecAll : Button :=
  { id := "rec", label := "Rec", color := .none, targets := .all,
    request := { method := "GET", path := .str "/cgi", params := .dict [], data := .none } }

/-- The registry-derived canonical contents of the resolved target set, in
the order the source's data structures record them (dict keys in insertion
order for `"all"`, set-insertion order otherwise). -/
def canonTargetIds (st : SrvState) (btn : Button) (req : List String) : List String :=
  if req.isEmpty then allowedIds st btn
  else (allowedIds st btn).filter (fun x => decide (x ∈ req))

/-- The network-independent parts of the C1 witness fixture. -/
def camA : Camera :=
  { id := "a", name := "A", url := "http://a", gui_path := "/",
    auth_type := "digest", username := .none, password := .none }

def camB : Camera :=
  { id := "b", name := "B", url := "http://b", gui_path := "/",
    auth_type := "digest", username := .none, password := .none }

def reqX : ReqCfg :=
  { method := "GET", path := .str "/x", params := .dict [], data := .none }

/-- A healthy network: every request answers 200. -/
def netAllOk : NetReq → NetOutcome := fun _ => .resp 200 ""

/-- The same network with camera `a`'s endpoint timing out. -/
def netAFails : NetReq → NetOutcome := fun r =>
  if r.url == "http://a/x" then .exc "timeout" else .resp 200 ""

/-- The registry invariant `api_run_button` relies on: every configured
camera's id is a key of the `CAMERAS_BY_ID` index (established by
`load_config`, see `load_config_keys`). -/
def RegistryOk (st : SrvState) : Prop :=
  ∀ c ∈ st.config.cameras, c.id ∈ st.camerasById.map Prod.fst

instance (st : SrvState) : Decidable (RegistryOk st) :=
  List.decidableBAll _ st.config.cameras

/-- Every registered button's request path is a string (or absent): the
schema conformance under which `send_camera_request` cannot raise. -/
def PathsOk (st : SrvState) : Prop :=
  ∀ kv ∈ st.buttonsById, (reqPathStr kv.2.request).isSome = true

instance (st : SrvState) : Decidable (PathsOk st) :=
  List.decidableBAll _ st.buttonsById

/-- A config whose `cameras` entry is not iterable: line 63's loop header
raises TypeError after line 61 already cleared `CAMERAS_BY_ID`. -/
def rawBadCams : Val := .dict [("cameras", .int 5)]

/-- Two camera entries whose names slugify to the same default id. -/
def rawDup : Val := .dict
  [("cameras", .list
    [.dict [("name", .str "Cam A"), ("url", .str "http://a")],
     .dict [("name", .str "cam a"), ("url", .str "http://b")]])]

/-- Three camera entries: two valid, one missing all required fields. -/
def tkEntries : List Val :=
  [.dict [("ip", .str "10.0.0.1"), ("username", .str "u"), ("password", .str "p")],
   .dict [("name", .str "X")],
   .dict [("ip", .str "10.0.0.2"), ("username", .str "u2"), ("password", .str "p2"),
          ("zoom", .int 2)]]

/-- A browser engine on which reload, evaluate and goto all succeed. -/
def envHealthy : BEnv :=
  { reloadOk := true, zoomEvalOk := true, gotoOk := true, screenInfo := Option.none }

def bstRunning : BState :=
  { browser := true, nextId := 4, screenWidth := 1920, screenHeight := 1080,
    mainWindowPositioned := true }

def camVenice : BCamera := { name := "Venice", context := some 2, page := some 2 }

/-- `camA` with credentials and a different auth scheme attached. -/
def camA2 : Camera :=
  { camA with
    username := Val.str "admin"
    password := Val.str "hunter2"
    auth_type := "basic" }

def stPub1 : SrvState :=
  { port := 8080
    config := { settings := { port := 8080, command_delay_ms := 0 },
                cameras := [camA], buttons := [] }
    camerasById := [("a", camA)]
    buttonsById := [] }

def stPub2 : SrvState :=
  { stPub1 with
    config := { settings := { port := 8080, command_delay_ms := 0 },
                cameras := [camA2], buttons := [] }
    camerasById := [("a", camA2)] }

/-! ## Basic lemmas about the dict and set models -/

theorem alookup_isSome_of_mem_keys {α : Type} (d : List (String × α)) (k : String)
    (h : k ∈ d.map Prod.fst) : (alookup d k).isSome = true := by
  induction d with
  | nil => simp at h
  | cons hd tl ih =>
      obtain ⟨k0, v0⟩ := hd
      by_cases hk : k0 = k
      · simp [alookup, hk]
      · simp only [List.map_cons, List.mem_cons] at h
        rcases h with h | h
        · exact absurd h.symm hk
        · simpa [alookup, hk] using ih h

theorem keys_dictInsert {α : Type} (d : List (String × α)) (k : String) (v : α) :
    (dictInsert d k v).map Prod.fst =
      if k ∈ d.map Prod.fst then d.map Prod.fst else d.map Prod.fst ++ [k] := by
  induction d with
  | nil => simp [dictInsert]
  | cons hd tl ih =>
      obtain ⟨k0, v0⟩ := hd
      by_cases hk : k0 = k
      · simp [dictInsert, hk]
      · by_cases hm : k ∈ tl.map Prod.fst
        · simp [dictInsert, hk, hm, ih, Ne.symm hk]
        · simp [dictInsert, hk, hm, ih, Ne.symm hk]

theorem mem_keys_dictInsert {α : Type} (d : List (String × α)) (k : String)
    (v : α) (x : String) :
    x ∈ (dictInsert d k v).map Prod.fst ↔ x ∈ d.map Prod.fst ∨ x = k := by
  rw [keys_dictInsert]
  split
  · constructor
    · exact fun h => Or.inl h
    · rintro (h | rfl)
      · exact h
      · assumption
  · simp

theorem nodup_keys_dictInsert {α : Type} (d : List (String × α)) (k : String)
    (v : α) (h : (d.map Prod.fst).Nodup) :
    ((dictInsert d k v).map Prod.fst).Nodup := by
  rw [keys_dictInsert]
  split
  · exact h
  · next hm =>
      rw [List.nodup_append]
      refine ⟨h, List.nodup_singleton _, ?_⟩
      intro a ha hb
      simp only [List.mem_singleton] at hb
      subst hb
      exact hm ha

theorem mem_pySetAdd (l : List String) (x y : String) :
    y ∈ pySetAdd l x ↔ y ∈ l ∨ y = x := by
  unfold pySetAdd
  split
  · next hx =>
      constructor
      · exact fun h => Or.inl h
      · rintro (h | rfl)
        · exact h
        · exact hx
  · simp

theorem nodup_pySetAdd (l : List String) (x : String) (h : l.Nodup) :
    (pySetAdd l x).Nodup := by
  unfold pySetAdd
  split
  · exact h
  · next hx =>
      rw [List.nodup_append]
      refine ⟨h, List.nodup_singleton _, ?_⟩
      intro a ha hb
      simp only [List.mem_singleton] at hb
      subst hb
      exact hx ha

/-- A `foldl` whose step preserves a predicate preserves it overall. -/
theorem foldl_preserve {α β : Type} (p : α → Prop) (f : α → β → α)
    (hstep : ∀ a b, p a → p (f a b)) :
    ∀ (l : List β) (a : α), p a → p (l.foldl f a)
  | [], a, ha => ha
  | b :: l, a, ha => foldl_preserve p f hstep l (f a b) (hstep a b ha)

/-! ## Lemmas about exMapM -/

theorem exMapM_map {α β : Type} (f : α → Except PyErr β) (g : α → β)
    (h : ∀ a, f a = .ok (g a)) : ∀ l : List α, exMapM f l = .ok (l.map g)
  | [] => by simp [exMapM]
  | a :: l => by simp [exMapM, h a, exMapM_map f g h l]

theorem exMapM_ok_of_forall {α β : Type} (f : α → Except PyErr β) :
    ∀ l : List α, (∀ a ∈ l, ∃ b, f a = .ok b) →
      ∃ bs, exMapM f l = .ok bs ∧ bs.length = l.length
  | [], _ => ⟨[], rfl, rfl⟩
  | a :: l, h => by
      obtain ⟨b, hb⟩ := h a (List.mem_cons_self a l)
      obtain ⟨bs, hbs, hlen⟩ :=
        exMapM_ok_of_forall f l (fun x hx => h x (List.mem_cons_of_mem a hx))
      exact ⟨b :: bs, by simp [exMapM, hb, hbs], by simp [hlen]⟩

/-! ## Lemmas about target resolution -/

theorem mem_addMatches (cams : List Camera) (t : Val) :
    ∀ (acc : List String) (x : String),
      x ∈ addMatches cams t acc ↔
        x ∈ acc ∨ ∃ c ∈ cams, targetMatches c t = true ∧ c.id = x := by
  induction cams with
  | nil => intro acc x; simp [addMatches]
  | cons c cams ih =>
      intro acc x
      by_cases hm : targetMatches c t
      · rw [show addMatches (c :: cams) t acc = addMatches cams t (pySetAdd acc c.id) from by
            simp [addMatches, hm]]
        rw [ih, mem_pySetAdd]
        constructor
        · rintro ((h | rfl) | ⟨c', hc', hm', rfl⟩)
          · exact Or.inl h
          · exact Or.inr ⟨c, List.mem_cons_self c cams, hm, rfl⟩
          · exact Or.inr ⟨c', List.mem_cons_of_mem c hc', hm', rfl⟩
        · rintro (h | ⟨c', hc', hm', rfl⟩)
          · exact Or.inl (Or.inl h)
          · rcases List.mem_cons.mp hc' with rfl | hc'
            · exact Or.inl (Or.inr rfl)
            · exact Or.inr ⟨c', hc', hm', rfl⟩
      · rw [show addMatches (c :: cams) t acc = addMatches cams t acc from by
            simp [addMatches, hm]]
        rw [ih]
        constructor
        · rintro (h | ⟨c', hc', hm', rfl⟩)
          · exact Or.inl h
          · exact Or.inr ⟨c', List.mem_cons_of_mem c hc', hm', rfl⟩
        · rintro (h | ⟨c', hc', hm', rfl⟩)
          · exact Or.inl h
          · rcases List.mem_cons.mp hc' with rfl | hc'
            · exact absurd hm' hm
            · exact Or.inr ⟨c', hc', hm', rfl⟩

theorem nodup_addMatches (cams : List Camera) (t : Val) (acc : List String)
    (h : acc.Nodup) : (addMatches cams t acc).Nodup := by
  unfold addMatches
  refine foldl_preserve (fun l => l.Nodup) _ ?_ cams acc h
  intro a c ha
  split
  · exact nodup_pySetAdd a c.id ha
  · exact ha

theorem mem_allowedIds_explicit (st : SrvState) (ts : List Val) :
    ∀ x : String,
      x ∈ ts.foldl (fun acc t => addMatches st.config.cameras t acc) [] ↔
        ∃ c ∈ st.config.cameras, c.id = x ∧ ∃ t ∈ ts, targetMatches c t = true := by
  suffices hgen : ∀ (ts : List Val) (acc : List String) (x : String),
      x ∈ ts.foldl (fun acc t => addMatches st.config.cameras t acc) acc ↔
        x ∈ acc ∨ ∃ t ∈ ts, ∃ c ∈ st.config.cameras, targetMatches c t = true ∧ c.id = x by
    intro x
    rw [hgen ts [] x]
    simp only [List.not_mem_nil, false_or]
    constructor
    · rintro ⟨t, ht, c, hc, hm, rfl⟩
      exact ⟨c, hc, rfl, t, ht, hm⟩
    · rintro ⟨c, hc, rfl, t, ht, hm⟩
      exact ⟨t, ht, c, hc, hm, rfl⟩
  intro ts
  induction ts with
  | nil => intro acc x; simp
  | cons t ts ih =>
      intro acc x
      rw [List.foldl_cons, ih, mem_addMatches]
      constructor
      · rintro ((h | ⟨c, hc, hm, rfl⟩) | ⟨t', ht', hrest⟩)
        · exact Or.inl h
        · exact Or.inr ⟨t, List.mem_cons_self t ts, c, hc, hm, rfl⟩
        · exact Or.inr ⟨t', List.mem_cons_of_mem t ht', hrest⟩
      · rintro (h | ⟨t', ht', c, hc, hm, rfl⟩)
        · exact Or.inl (Or.inl h)
        · rcases List.mem_cons.mp ht' with rfl | ht'
          · exact Or.inl (Or.inr ⟨c, hc, hm, rfl⟩)
          · exact Or.inr ⟨t', ht', c, hc, hm, rfl⟩

theorem nodup_allowedIds_explicit (st : SrvState) (ts : List Val) :
    (ts.foldl (fun acc t => addMatches st.config.cameras t acc) []).Nodup := by
  refine foldl_preserve (fun l : List String => l.Nodup) _ ?_ ts []
    (List.nodup_nil : ([] : List String).Nodup)
  intro acc t h
  exact nodup_addMatches st.config.cameras t acc h

/-! ## Invariants established by load_config -/

/-- Through the whole camera loop, the keys of the `CAMERAS_BY_ID` dict are
exactly the ids of the cameras accumulated so far, without duplicates. -/
theorem buildCameras_inv (g : Globals) :
    ∀ (entries : List Val) (acc : List Camera) (byId : List (String × Camera)),
      (∀ x, x ∈ byId.map Prod.fst ↔ ∃ c ∈ acc, c.id = x) →
      (byId.map Prod.fst).Nodup →
      (∀ x, x ∈ (buildCameras g entries acc byId).2.1.map Prod.fst ↔
          ∃ c ∈ (buildCameras g entries acc byId).1, c.id = x) ∧
        ((buildCameras g entries acc byId).2.1.map Prod.fst).Nodup := by
  intro entries
  induction entries with
  | nil => intro acc byId hmem hnd; exact ⟨hmem, hnd⟩
  | cons v rest ih =>
      intro acc byId hmem hnd
      cases hp : processCamEntry g v with
      | error e =>
          rw [show buildCameras g (v :: rest) acc byId = (acc, byId, some e) from by
            simp [buildCameras, hp]]
          exact ⟨hmem, hnd⟩
      | ok oc =>
          cases oc with
          | none =>
              rw [show buildCameras g (v :: rest) acc byId = buildCameras g rest acc byId from by
                simp [buildCameras, hp]]
              exact ih acc byId hmem hnd
          | some c =>
              rw [show buildCameras g (v :: rest) acc byId =
                  buildCameras g rest (acc ++ [c]) (dictInsert byId c.id c) from by
                simp [buildCameras, hp]]
              refine ih (acc ++ [c]) (dictInsert byId c.id c) ?_
                (nodup_keys_dictInsert byId c.id c hnd)
              intro x
              rw [mem_keys_dictInsert, hmem x]
              constructor
              · rintro (⟨c', hc', rfl⟩ | rfl)
                · exact ⟨c', List.mem_append_left [c] hc', rfl⟩
                · exact ⟨c, List.mem_append_right acc (List.mem_singleton_self c), rfl⟩
              · rintro ⟨c', hc', rfl⟩
                rcases List.mem_append.mp hc' with hc' | hc'
                · exact Or.inl ⟨c', hc', rfl⟩
                · rw [List.mem_singleton.mp hc']
                  exact Or.inr rfl

/-- The camera phase always leaves the dict keys in bijection with the ids of
the camera list it returns (also at an error exit). -/
theorem camsPhase_inv (g : Globals) (raw : Val) :
    (∀ x, x ∈ (camsPhase g raw).2.1.map Prod.fst ↔
        ∃ c ∈ (camsPhase g raw).1, c.id = x) ∧
      ((camsPhase g raw).2.1.map Prod.fst).Nodup := by
  unfold camsPhase
  split
  · simp
  · exact buildCameras_inv g _ [] [] (by simp) List.nodup_nil

theorem load_core_inv (fe : Bool) (parsed : Except PyErr Val) :
    SuccessInv (load_core fe parsed) := by
  unfold load_core
  split
  · trivial
  split
  · trivial
  next rawv =>
    split
    · trivial
    next settings_v heq1 =>
      split
      · trivial
      next port heq2 =>
        split
        · trivial
        next delay heq3 =>
          split
          · trivial
          next g heq4 =>
            split
            · trivial
            next cameras camsById heq5 =>
              split
              · trivial
              next buttons btnsById heq6 =>
                have h := camsPhase_inv g (pyOr rawv (.dict []))
                rw [heq5] at h
                exact h

/-- A successful `load_config` leaves `CAMERAS_BY_ID` keyed exactly by the
ids of `CONFIG["cameras"]`, with no duplicate keys. -/
theorem load_config_keys (fe : Bool) (parsed : Except PyErr Val)
    (s st : SrvState) (h : load_config fe parsed s = (st, Option.none)) :
    (∀ x, x ∈ st.camerasById.map Prod.fst ↔ ∃ c ∈ st.config.cameras, c.id = x) ∧
      (st.camerasById.map Prod.fst).Nodup := by
  have hinv := load_core_inv fe parsed
  unfold load_config at h
  cases hcore : load_core fe parsed <;> rw [hcore] at h hinv <;>
    simp only [Prod.mk.injEq] at h
  case earlyErr e => exact absurd h.2 (by simp)
  case portErr p e => exact absurd h.2 (by simp)
  case camsErr p camsById e => exact absurd h.2 (by simp)
  case btnsErr p camsById btnsById e => exact absurd h.2 (by simp)
  case success p d cameras camsById buttons btnsById =>
    rw [← h.1]
    exact hinv

/-! ## Shared resolver lemmas -/

/-- Every resolved id was in the allowed set. -/
theorem mem_allowedIds_of_mem_resolve (E : PySetIter) (st : SrvState)
    (btn : Button) (req : List String) (x : String)
    (h : x ∈ resolveTargetIds E st btn req) : x ∈ allowedIds st btn := by
  unfold resolveTargetIds at h
  split at h
  · exact (E.perm _).mem_iff.mp h
  · exact (List.mem_filter.mp ((E.perm _).mem_iff.mp h)).1

/-- For a loaded registry, the allowed set is a subset of the index keys. -/
theorem mem_keys_of_mem_allowedIds (fe : Bool) (parsed : Except PyErr Val)
    (s st : SrvState) (hload : load_config fe parsed s = (st, Option.none))
    (btn : Button) (x : String) (h : x ∈ allowedIds st btn) :
    x ∈ st.camerasById.map Prod.fst := by
  unfold allowedIds at h
  cases hb : btn.targets with
  | all => rw [hb] at h; exact h
  | explicit ts =>
      rw [hb] at h
      obtain ⟨c, hc, rfl, -⟩ := (mem_allowedIds_explicit st ts x).mp h
      exact ((load_config_keys fe parsed s st hload).1 c.id).mpr ⟨c, hc, rfl⟩

/-- For a loaded registry, the allowed set has no duplicates. -/
theorem nodup_allowedIds (fe : Bool) (parsed : Except PyErr Val)
    (s st : SrvState) (hload : load_config fe parsed s = (st, Option.none))
    (btn : Button) : (allowedIds st btn).Nodup := by
  unfold allowedIds
  cases btn.targets with
  | all => exact (load_config_keys fe parsed s st hload).2
  | explicit ts => exact nodup_allowedIds_explicit st ts

/-- The resolved id list inherits the allowed set's lack of duplicates. -/
theorem nodup_resolveTargetIds (E : PySetIter) (st : SrvState) (btn : Button)
    (req : List String) (h : (allowedIds st btn).Nodup) :
    (resolveTargetIds E st btn req).Nodup := by
  unfold resolveTargetIds
  split
  · exact ((E.perm _).nodup_iff).mpr h
  · exact ((E.perm _).nodup_iff).mpr (h.filter _)

/-! ## Concrete fixtures used by witnesses and counterexamples -/

/-! ## C2 — target resolution -/

/-- C2: for every action, registry and caller-supplied id set, the allowed set
is the whole registry for the `"all"` sentinel and otherwise exactly the
devices whose id or name case-insensitively equals an entry of the action's
targets; a non-empty caller set intersects with it, an empty one leaves it;
a disjoint caller set yields the empty set as a normal (non-error) result. -/
theorem c2_target_resolution (E : PySetIter) (fe : Bool)
    (parsed : Except PyErr Val) (s st : SrvState)
    (hload : load_config fe parsed s = (st, Option.none))
    (btn : Button) (req : List String) :
    (btn.targets = .all →
      ∀ x, x ∈ allowedIds st btn ↔ ∃ c ∈ st.config.cameras, c.id = x) ∧
    (∀ ts, btn.targets = .explicit ts →
      ∀ x, x ∈ allowedIds st btn ↔
        ∃ c ∈ st.config.cameras, c.id = x ∧ ∃ t ∈ ts, targetMatches c t = true) ∧
    (req ≠ [] →
      ∀ x, x ∈ resolveTargetIds E st btn req ↔ x ∈ allowedIds st btn ∧ x ∈ req) ∧
    (req = [] →
      ∀ x, x ∈ resolveTargetIds E st btn req ↔ x ∈ allowedIds st btn) ∧
    ((∀ x ∈ allowedIds st btn, x ∉ req) → req ≠ [] →
      resolve_button_targets E st btn req = .ok []) := by
  refine ⟨?_, ?_, ?_, ?_, ?_⟩
  · intro hall x
    unfold allowedIds
    rw [hall]
    exact (load_config_keys fe parsed s st hload).1 x
  · intro ts hex x
    unfold allowedIds
    rw [hex]
    exact mem_allowedIds_explicit st ts x
  · intro hne x
    unfold resolveTargetIds
    rw [if_neg (by simpa [List.isEmpty_iff] using hne)]
    rw [(E.perm _).mem_iff, List.mem_filter]
    simp
  · intro he x
    unfold resolveTargetIds
    rw [if_pos (by simp [he]), (E.perm _).mem_iff]
  · intro hdisj hne
    have hids : resolveTargetIds E st btn req = [] := by
      unfold resolveTargetIds
      rw [if_neg (by simpa [List.isEmpty_iff] using hne)]
      have : (allowedIds st btn).filter (fun x => decide (x ∈ req)) = [] := by
        rw [List.filter_eq_nil_iff]
        intro a ha
        simpa using hdisj a ha
      rw [this]
      exact (E.perm []).eq_nil
    unfold resolve_button_targets
    rw [hids]
    rfl

/-- C2 witness: the spec's own example — action `spotlight` with
`targets=["a","c"]` and caller ids `["b","c"]` resolves to `{c}` only. -/
theorem c2_target_resolution_witness :
    "c" ∈ resolveTargetIds enumId stABC btnSpotlight ["b", "c"] ∧
    "b" ∉ resolveTargetIds enumId stABC btnSpotlight ["b", "c"] := by
  have h := c2_target_resolution enumId true (.ok rawABC) initState stABC rfl
    btnSpotlight ["b", "c"]
  have h3 := h.2.2.1 (by simp)
  constructor
  · exact (h3 "c").mpr ⟨by decide, by decide⟩
  · intro hb
    have hb2 := ((h3 "b").mp hb).1
    revert hb2
    decide

/-! ## C10 — resolver totality and dedup -/

/-- C10: over a loaded registry, every id the resolver produces is a key of
`CAMERAS_BY_ID` (so the per-id lookup of line 221 never raises), each id
occurs at most once, and the final camera list is produced without error,
with one camera per resolved id. -/
theorem c10_resolver_total_nodup (E : PySetIter) (fe : Bool)
    (parsed : Except PyErr Val) (s st : SrvState)
    (hload : load_config fe parsed s = (st, Option.none))
    (btn : Button) (req : List String) :
    (∀ x ∈ resolveTargetIds E st btn req, (alookup st.camerasById x).isSome = true) ∧
    (resolveTargetIds E st btn req).Nodup ∧
    ∃ cams, resolve_button_targets E st btn req = .ok cams ∧
      cams.length = (resolveTargetIds E st btn req).length := by
  have hsome : ∀ x ∈ resolveTargetIds E st btn req,
      (alookup st.camerasById x).isSome = true := by
    intro x hx
    exact alookup_isSome_of_mem_keys st.camerasById x
      (mem_keys_of_mem_allowedIds fe parsed s st hload btn x
        (mem_allowedIds_of_mem_resolve E st btn req x hx))
  refine ⟨hsome, nodup_resolveTargetIds E st btn req
    (nodup_allowedIds fe parsed s st hload btn), ?_⟩
  unfold resolve_button_targets
  refine exMapM_ok_of_forall _ (resolveTargetIds E st btn req) ?_
  intro x hx
  obtain ⟨c, hc⟩ := Option.isSome_iff_exists.mp (hsome x hx)
  exact ⟨c, by rw [hc]⟩

/-- C10 witness: over the loaded `rawABC` registry, resolving the `"all"`
action against caller ids `["c","a","zz"]` succeeds with one camera per id
and no duplicate ids. -/
theorem c10_resolver_total_nodup_witness :
    (resolveTargetIds enumId stABC btnRecAll ["c", "a", "zz"]).Nodup ∧
    ∃ cams, resolve_button_targets enumId stABC btnRecAll ["c", "a", "zz"] = .ok cams ∧
      cams.length = (resolveTargetIds enumId stABC btnRecAll ["c", "a", "zz"]).length := by
  have h := c10_resolver_total_nodup enumId true (.ok rawABC) initState stABC rfl
    btnRecAll ["c", "a", "zz"]
  exact ⟨h.2.1, h.2.2⟩

/-! ## C4 — result ordering -/

/-- C4 counterexample: the source converts the resolved set to a list by
iterating a CPython `set`, whose order is hash-based — `enumRev` is one
possible iteration order — so over the loaded `rawABC` registry the `"all"`
action can come out in the order `["c","b","a"]` while the targeted devices
appear in the registry in the order `["a","b","c"]`: the emitted order is
not the registry insertion order, refuting the claim as stated. -/
theorem c4_order_counterexample :
    resolveTargetIds enumRev stABC btnRecAll [] = ["c", "b", "a"] ∧
    stABC.config.cameras.map (fun c => c.id) = ["a", "b", "c"] ∧
    (["c", "b", "a"] : List String) ≠ ["a", "b", "c"] := by
  refine ⟨by decide, by decide, by decide⟩

/-- C4 amended: within one dispatch the per-device results are emitted in
the iteration order of the interpreter's set of resolved ids — a permutation
of the registry-derived target set, containing exactly the resolved ids —
which is fixed for a given interpreter state (so a repeated dispatch in the
same process emits the same order) but is not guaranteed to be the registry
insertion order. -/
theorem c4_order_amended (E : PySetIter) (st : SrvState) (btn : Button)
    (req : List String) :
    (resolveTargetIds E st btn req).Perm (canonTargetIds st btn req) ∧
    ∀ x, x ∈ resolveTargetIds E st btn req ↔ x ∈ canonTargetIds st btn req := by
  unfold resolveTargetIds canonTargetIds
  split
  · exact ⟨E.perm _, fun x => (E.perm _).mem_iff⟩
  · exact ⟨E.perm _, fun x => (E.perm _).mem_iff⟩

/-! ## C1 — per-device failure isolation in the dispatch loop -/

/-- When the configured path is a (or defaults to the) string `p`,
`send_camera_request` cannot raise: every outcome is classified. -/
theorem send_camera_request_ok (net : NetReq → NetOutcome) (cam : Camera)
    (req : ReqCfg) (p : String) (hp : reqPathStr req = some p) :
    send_camera_request net cam req = .ok (sendCore net cam req p) := by
  unfold send_camera_request
  unfold reqPathStr at hp
  split at hp <;> simp_all

/-- Under the same path condition the whole loop runs to completion, one
result per target, each computed independently. -/
theorem runButtonResults_map (net : NetReq → NetOutcome) (req : ReqCfg)
    (p : String) (hp : reqPathStr req = some p) (targets : List Camera) :
    runButtonResults net req targets =
      .ok (targets.map (fun cam => sendCore net cam req p)) := by
  unfold runButtonResults
  exact exMapM_map _ _ (fun cam => send_camera_request_ok net cam req p hp) targets

/-- A failing outcome is recorded as `ok=false` with a non-null error. -/
theorem classify_failure (o : NetOutcome) (cam : Camera)
    (h : failureOutcome o = true) :
    (classify o cam).ok = false ∧ (classify o cam).error ≠ Option.none := by
  cases o with
  | resp status text =>
      unfold failureOutcome at h
      simp only [Bool.not_eq_true'] at h
      simp [classify, h]
  | exc m => simp [classify]

/-- C1: with a schema-conformant request path, dispatching an action over
`M` resolved targets yields exactly `M` results, one per target in order;
when device `k`'s outcome is a failure (exception — connection error,
timeout — or a non-success response) its entry has `ok=false` and a non-null
error, and every other device's entry is exactly what it would have been
under a network (`net`) that does not fail device `k`: one device's failure
never aborts or alters the rest of the batch. -/
theorem c1_per_device_isolation (net net' : NetReq → NetOutcome)
    (req : ReqCfg) (p : String) (targets : List Camera) (k : Nat)
    (hp : reqPathStr req = some p) (hk : k < targets.length)
    (hfail : failureOutcome (net' (mkNetReq (targets.get ⟨k, hk⟩) req p)) = true)
    (hagree : ∀ i, (hi : i < targets.length) → i ≠ k →
      net' (mkNetReq (targets.get ⟨i, hi⟩) req p) =
        net (mkNetReq (targets.get ⟨i, hi⟩) req p)) :
    runButtonResults net' req targets =
      .ok (targets.map (fun cam => sendCore net' cam req p)) ∧
    (targets.map (fun cam => sendCore net' cam req p)).length = targets.length ∧
    (sendCore net' (targets.get ⟨k, hk⟩) req p).ok = false ∧
    (sendCore net' (targets.get ⟨k, hk⟩) req p).error ≠ Option.none ∧
    (∀ i, (hi : i < targets.length) → i ≠ k →
      sendCore net' (targets.get ⟨i, hi⟩) req p =
        sendCore net (targets.get ⟨i, hi⟩) req p) := by
  obtain ⟨hko, hke⟩ := classify_failure _ (targets.get ⟨k, hk⟩) hfail
  refine ⟨runButtonResults_map net' req p hp targets, List.length_map targets _,
    hko, hke, ?_⟩
  intro i hi hne
  unfold sendCore
  rw [hagree i hi hne]

/-- C1 witness: dispatching over `[camA, camB]` under `netAFails` yields two
results; camera `a`'s is a recorded failure and camera `b`'s is exactly its
`netAllOk` result. -/
theorem c1_per_device_isolation_witness :
    runButtonResults netAFails reqX [camA, camB] =
      .ok ([camA, camB].map (fun cam => sendCore netAFails cam reqX "/x")) ∧
    ([camA, camB].map (fun cam => sendCore netAFails cam reqX "/x")).length = 2 ∧
    (sendCore netAFails camA reqX "/x").ok = false ∧
    (sendCore netAFails camB reqX "/x") = (sendCore netAllOk camB reqX "/x") := by
  have h := c1_per_device_isolation netAllOk netAFails reqX "/x" [camA, camB] 0
    rfl (by decide) (by decide)
    (by
      intro i hi hne
      match i with
      | 0 => exact absurd rfl hne
      | 1 => rfl)
  exact ⟨h.1, h.2.1, h.2.2.1, h.2.2.2.2 1 (by decide) (by decide)⟩

/-! ## C8 — dispatcher-level errors -/

theorem alookup_mem {α : Type} (d : List (String × α)) (k : String) (v : α)
    (h : alookup d k = some v) : (k, v) ∈ d := by
  induction d with
  | nil => simp [alookup] at h
  | cons hd tl ih =>
      obtain ⟨k0, v0⟩ := hd
      by_cases hk : k0 = k
      · subst hk
        rw [alookup, if_pos rfl] at h
        obtain rfl := Option.some.inj h
        exact List.mem_cons_self _ _
      · rw [alookup, if_neg hk] at h
        exact List.mem_cons_of_mem _ (ih h)

/-- Under `RegistryOk`, every allowed id is a key of the index. -/
theorem mem_keys_of_allowed (st : SrvState) (hreg : RegistryOk st)
    (btn : Button) (x : String) (h : x ∈ allowedIds st btn) :
    x ∈ st.camerasById.map Prod.fst := by
  unfold allowedIds at h
  cases hb : btn.targets with
  | all => rw [hb] at h; exact h
  | explicit ts =>
      rw [hb] at h
      obtain ⟨c, hc, rfl, -⟩ := (mem_allowedIds_explicit st ts x).mp h
      exact hreg c hc

/-- C8: a `run_button` call with an unknown (or falsy) `button_id`, or one
whose resolved target set is empty, is answered with an HTTP 400 and an
error message — by an equation that holds for EVERY network oracle `net`,
i.e. before any per-device I/O; any other call on a well-formed registry is
answered with the 200 aggregated per-device result list (one entry per
resolved target), regardless of how many devices fail.  These are the only
dispatcher-level error kinds. -/
theorem c8_dispatch_errors (E : PySetIter) (net : NetReq → NetOutcome)
    (st : SrvState) (targetIds : List String)
    (hreg : RegistryOk st) (hpaths : PathsOk st) :
    (∀ v : Val, unknown_bid st v = true →
      api_run_button E net st v targetIds = .badRequest "Unknown button_id") ∧
    (∀ s btn, alookup st.buttonsById s = some btn → ¬s = "" →
      resolveTargetIds E st btn targetIds = [] →
      api_run_button E net st (.str s) targetIds =
        .badRequest "No target cameras for this button") ∧
    (∀ s btn, alookup st.buttonsById s = some btn → ¬s = "" →
      resolveTargetIds E st btn targetIds ≠ [] →
      ∃ results, api_run_button E net st (.str s) targetIds =
          .okResp (results.all (fun r => r.ok)) s results ∧
        results.length = (resolveTargetIds E st btn targetIds).length) := by
  refine ⟨?_, ?_, ?_⟩
  · intro v hv
    unfold api_run_button
    unfold unknown_bid at hv
    cases htv : pyTruthy v
    · rw [if_pos (by simp [htv])]
    · rw [if_neg (by simp [htv])]
      rw [if_neg (by simp [htv])] at hv
      cases v with
      | str s =>
          have : alookup st.buttonsById s = Option.none := by
            simpa [Option.isNone_iff_eq_none] using hv
          simp [this]
      | list xs => simp at hv
      | dict kvs => simp at hv
      | none => rfl
      | bool b => rfl
      | int n => rfl
  · intro s btn hbtn hs hempty
    unfold api_run_button
    rw [if_neg (by simp [pyTruthy, hs])]
    have hres : resolve_button_targets E st btn targetIds = .ok [] := by
      unfold resolve_button_targets
      rw [hempty]
      rfl
    simp [hbtn, hres]
  · intro s btn hbtn hs hne
    have hsome : ∀ x ∈ resolveTargetIds E st btn targetIds,
        (alookup st.camerasById x).isSome = true := by
      intro x hx
      exact alookup_isSome_of_mem_keys st.camerasById x
        (mem_keys_of_allowed st hreg btn x
          (mem_allowedIds_of_mem_resolve E st btn targetIds x hx))
    obtain ⟨cams, hcams, hlen⟩ :=
      exMapM_ok_of_forall
        (fun cid => match alookup st.camerasById cid with
          | some c => Except.ok c
          | Option.none => Except.error (PyErr.keyError cid))
        (resolveTargetIds E st btn targetIds)
        (by
          intro x hx
          obtain ⟨c, hc⟩ := Option.isSome_iff_exists.mp (hsome x hx)
          exact ⟨c, by dsimp only; rw [hc]⟩)
    have hres : resolve_button_targets E st btn targetIds = .ok cams := hcams
    obtain ⟨p, hp⟩ := Option.isSome_iff_exists.mp
      (hpaths (s, btn) (alookup_mem st.buttonsById s btn hbtn))
    have hrun := runButtonResults_map net btn.request p hp cams
    refine ⟨cams.map (fun cam => sendCore net cam btn.request p), ?_, ?_⟩
    · unfold api_run_button
      rw [if_neg (by simp [pyTruthy, hs])]
      cases cams with
      | nil =>
          exfalso
          apply hne
          have := hlen.symm
          simpa using List.length_eq_zero.mp (by simpa using this)
      | cons c cs => simp [hbtn, hres, hrun]
    · rw [List.length_map]
      exact hlen

/-- The loaded `rawABC` state satisfies the C8 hypotheses. -/
theorem stABC_invariants : RegistryOk stABC ∧ PathsOk stABC := by
  constructor <;> decide

/-- C8 witness: on the loaded `rawABC` registry, an unknown id and a
disjoint caller set are both answered 400, and a dispatch with resolvable
targets is answered with a 200 result list of the resolved length. -/
theorem c8_dispatch_errors_witness :
    api_run_button enumId netAllOk stABC (.str "nope") [] =
      .badRequest "Unknown button_id" ∧
    api_run_button enumId netAllOk stABC (.str "spotlight") ["zz"] =
      .badRequest "No target cameras for this button" ∧
    ∃ results, api_run_button enumId netAllOk stABC (.str "spotlight") [] =
        .okResp (results.all (fun r => r.ok)) "spotlight" results ∧
      results.length = 2 := by
  have h1 := (c8_dispatch_errors enumId netAllOk stABC []
    (by decide) (by decide)).1 (.str "nope") (by decide)
  have h2 := (c8_dispatch_errors enumId netAllOk stABC ["zz"]
    (by decide) (by decide)).2.1 "spotlight"
    ((alookup stABC.buttonsById "spotlight").getD btnSpotlight)
    rfl (by decide) (by decide)
  have h3 := (c8_dispatch_errors enumId netAllOk stABC []
    (by decide) (by decide)).2.2 "spotlight"
    ((alookup stABC.buttonsById "spotlight").getD btnSpotlight)
    rfl (by decide) (by decide)
  refine ⟨h1, h2, ?_⟩
  obtain ⟨results, hr, hlen⟩ := h3
  exact ⟨results, hr, by rw [hlen]; decide⟩

/-! ## C3 — reload atomicity -/

/-- C3 counterexample: reloading the loaded `rawABC` registry with
`rawBadCams` fails (the endpoint answers with an error), yet afterwards
`CAMERAS_BY_ID` is empty while `CONFIG` still holds the previous three
cameras — a reader sees neither the old nor the new registry complete, and
a subsequent `"all"`-target resolution finds no devices although the old
registry had three: the previously loaded registry does NOT remain intact. -/
theorem c3_reload_counterexample :
    (api_reload_config true (.ok rawBadCams) stABC).2 ≠ .okTrue ∧
    (api_reload_config true (.ok rawBadCams) stABC).1.camerasById.length = 0 ∧
    stABC.camerasById.length = 3 ∧
    (api_reload_config true (.ok rawBadCams) stABC).1.config.cameras.length = 3 ∧
    resolveTargetIds enumId
      (api_reload_config true (.ok rawBadCams) stABC).1 btnRecAll [] = [] ∧
    resolveTargetIds enumId stABC btnRecAll [] = ["a", "b", "c"] := by
  refine ⟨by decide, by decide, by decide, by decide, by decide, by decide⟩

/-- C3 amended: a reload that fails before any registry mutation (missing
file, unreadable/unparsable config, or an error while reading the settings
section before line 51) leaves the whole previous state untouched, and a
SUCCESSFUL reload replaces the registry wholesale — the new state is a
function of the new raw config alone, independent of the previous state.
But (per the counterexample) a failure raised during the camera or button
build loops leaves the globals partially updated: the id indexes hold the
partially built new tables while `CONFIG` keeps the previous generation. -/
theorem c3_reload_amended (fe : Bool) (parsed : Except PyErr Val)
    (s s1 s2 st1 st2 : SrvState) (e : PyErr) :
    (load_core fe parsed = .earlyErr e → load_config fe parsed s = (s, some e)) ∧
    (load_config fe parsed s1 = (st1, Option.none) →
      load_config fe parsed s2 = (st2, Option.none) → st1 = st2) := by
  constructor
  · intro h
    unfold load_config
    rw [h]
  · intro h1 h2
    unfold load_config at h1 h2
    cases hcore : load_core fe parsed <;> rw [hcore] at h1 h2 <;>
      simp only [Prod.mk.injEq] at h1 h2
    case earlyErr e1 => exact absurd h1.2 (by simp)
    case portErr p e1 => exact absurd h1.2 (by simp)
    case camsErr p camsById e1 => exact absurd h1.2 (by simp)
    case btnsErr p camsById btnsById e1 => exact absurd h1.2 (by simp)
    case success p d cameras camsById buttons btnsById => rw [← h1.1, ← h2.1]

/-- C3 amended witness: a missing config file leaves the loaded state
untouched, and loading `rawABC` from two different prior states yields the
same new state. -/
theorem c3_reload_amended_witness :
    load_config false (.ok rawABC) stABC =
      (stABC, some (.runtimeError "config.yaml not found")) ∧
    (load_config true (.ok rawABC) initState).1 =
      (load_config true (.ok rawABC) stABC).1 := by
  constructor
  · exact (c3_reload_amended false (.ok rawABC) stABC stABC stABC stABC stABC
      (.runtimeError "config.yaml not found")).1 rfl
  · exact (c3_reload_amended true (.ok rawABC) initState initState stABC
      ((load_config true (.ok rawABC) initState).1)
      ((load_config true (.ok rawABC) stABC).1) .typeError).2 rfl rfl

/-! ## C6 — uniqueness of device ids -/

/-- C6 counterexample: loading `rawDup` succeeds and puts TWO devices with
the id `"cam-a"` into the registry's device list `CONFIG["cameras"]` — the
registry's device ids are not pairwise unique when entries slugify to the
same id (only the `CAMERAS_BY_ID` keys are deduplicated, the second entry
overwriting the first in the index). -/
theorem c6_duplicate_ids_counterexample :
    (load_config true (.ok rawDup) initState).2 = Option.none ∧
    ((load_config true (.ok rawDup) initState).1.config.cameras.map
      (fun c => c.id)) = ["cam-a", "cam-a"] ∧
    ¬ ((load_config true (.ok rawDup) initState).1.config.cameras.map
      (fun c => c.id)).Nodup := by
  refine ⟨by decide, by decide, by decide⟩

/-- C6 amended: what the build does guarantee is that the `CAMERAS_BY_ID`
index has pairwise-distinct keys (a Python dict; colliding entries overwrite
the earlier value), and that every device in the registry list is reachable
through some key; the device LIST itself may carry duplicate ids. -/
theorem c6_unique_index_keys (fe : Bool) (parsed : Except PyErr Val)
    (s st : SrvState) (hload : load_config fe parsed s = (st, Option.none)) :
    (st.camerasById.map Prod.fst).Nodup ∧
    ∀ c ∈ st.config.cameras, c.id ∈ st.camerasById.map Prod.fst := by
  have h := load_config_keys fe parsed s st hload
  exact ⟨h.2, fun c hc => (h.1 c.id).mpr ⟨c, hc, rfl⟩⟩

/-- C6 amended witness: the index keys of the loaded `rawDup` registry are
the single key `"cam-a"`, valid and duplicate-free. -/
theorem c6_unique_index_keys_witness :
    ((load_config true (.ok rawDup) initState).1.camerasById.map Prod.fst).Nodup ∧
    ((load_config true (.ok rawDup) initState).1.camerasById.map Prod.fst) =
      ["cam-a"] := by
  have h := c6_unique_index_keys true (.ok rawDup) initState
    ((load_config true (.ok rawDup) initState).1) rfl
  exact ⟨h.1, by decide⟩

/-! ## C5 — malformed entries degrade to warnings -/

theorem isDictV_exists (v : Val) (h : isDictV v = true) : ∃ kvs, v = .dict kvs := by
  cases v <;> first | exact ⟨_, rfl⟩ | simp [isDictV] at h

/-- A fully valid entry builds a camera. -/
theorem processTkEntry_ok (idx : Nat) (v : Val)
    (hd : isDictV v = true) (hr : tkRequiredOk v = true) (hz : tkZoomOk v = true) :
    ∃ c, processTkEntry idx v = .ok c := by
  obtain ⟨kvs, rfl⟩ := isDictV_exists v hd
  unfold tkRequiredOk at hr
  dsimp only at hr
  simp only [Bool.and_eq_true] at hr
  obtain ⟨⟨hip, huser⟩, hpass⟩ := hr
  obtain ⟨ip, hip'⟩ := Option.isSome_iff_exists.mp hip
  obtain ⟨user, huser'⟩ := Option.isSome_iff_exists.mp huser
  obtain ⟨pass, hpass'⟩ := Option.isSome_iff_exists.mp hpass
  have hfc : pyFloatCheck ((alookup kvs "zoom").getD (.int 1)) = .ok () := by
    unfold tkZoomOk at hz
    dsimp only at hz
    cases h : pyFloatCheck ((alookup kvs "zoom").getD (.int 1)) with
    | ok u => cases u; rfl
    | error e => rw [h] at hz; simp at hz
  refine ⟨{ name := (alookup kvs "name").getD (.str ("Camera " ++ toString idx)),
            ip := pyStr ip, username := pyStr user, password := pyStr pass,
            zoomRaw := (alookup kvs "zoom").getD (.int 1) }, ?_⟩
  unfold processTkEntry
  simp only [pyGet, pyItem, hip', huser', hpass', hfc]

/-- An entry missing a required field raises exactly a KeyError (the first
missing field in evaluation order). -/
theorem processTkEntry_missing (idx : Nat) (v : Val)
    (hd : isDictV v = true) (hr : tkRequiredOk v = false) :
    ∃ k, processTkEntry idx v = .error (.keyError k) := by
  obtain ⟨kvs, rfl⟩ := isDictV_exists v hd
  unfold tkRequiredOk at hr
  dsimp only at hr
  cases hip : alookup kvs "ip" with
  | none => exact ⟨"ip", by unfold processTkEntry; simp [pyGet, pyItem, hip]⟩
  | some ip =>
      cases huser : alookup kvs "username" with
      | none =>
          exact ⟨"username", by unfold processTkEntry; simp [pyGet, pyItem, hip, huser]⟩
      | some user =>
          cases hpass : alookup kvs "password" with
          | none =>
              exact ⟨"password", by
                unfold processTkEntry; simp [pyGet, pyItem, hip, huser, hpass]⟩
          | some pass =>
              rw [hip, huser, hpass] at hr
              simp at hr

theorem length_filter_split {α : Type} (p q : α → Bool) (hpq : ∀ x, q x = !p x) :
    ∀ l : List α, (l.filter p).length + (l.filter q).length = l.length := by
  intro l
  induction l with
  | nil => rfl
  | cons x l ih =>
      cases h : p x <;> simp [List.filter_cons, h, hpq] <;> omega

/-- The entry loop: valid entries accumulate cameras, missing-field entries
accumulate warnings, and no exception escapes. -/
theorem loadCamerasLoop_spec :
    ∀ (entries : List Val) (idx : Nat) (cams : List TkCamera) (errs : List String),
      (∀ v ∈ entries, isDictV v = true) →
      (∀ v ∈ entries, tkRequiredOk v = true → tkZoomOk v = true) →
      ∃ cams2 errs2, loadCamerasLoop entries idx cams errs = .ok (cams2, errs2) ∧
        cams2.length = cams.length + (entries.filter (fun v => tkRequiredOk v)).length ∧
        errs2.length = errs.length + (entries.filter (fun v => !(tkRequiredOk v))).length
  | [], idx, cams, errs, _, _ => ⟨cams, errs, rfl, by simp, by simp⟩
  | v :: rest, idx, cams, errs, hd, hwf => by
      have hdrest : ∀ w ∈ rest, isDictV w = true :=
        fun w hw => hd w (List.mem_cons_of_mem v hw)
      have hwfrest : ∀ w ∈ rest, tkRequiredOk w = true → tkZoomOk w = true :=
        fun w hw => hwf w (List.mem_cons_of_mem v hw)
      by_cases hr : tkRequiredOk v = true
      · obtain ⟨c, hc⟩ := processTkEntry_ok idx v (hd v (List.mem_cons_self v rest))
          hr (hwf v (List.mem_cons_self v rest) hr)
        obtain ⟨cams2, errs2, hloop, hc2, he2⟩ :=
          loadCamerasLoop_spec rest (idx + 1) (cams ++ [c]) errs hdrest hwfrest
        refine ⟨cams2, errs2, ?_, ?_, ?_⟩
        · rw [loadCamerasLoop, hc]
          exact hloop
        · rw [hc2, show List.filter (fun v => tkRequiredOk v) (v :: rest) =
              v :: List.filter (fun v => tkRequiredOk v) rest from by
            simp [List.filter_cons, hr]]
          simp only [List.length_append, List.length_cons, List.length_singleton,
            List.length_nil]
          omega
        · rw [he2, show List.filter (fun v => !tkRequiredOk v) (v :: rest) =
              List.filter (fun v => !tkRequiredOk v) rest from by
            simp [List.filter_cons, hr]]
      · have hr' : tkRequiredOk v = false := by simpa using hr
        obtain ⟨k, hk⟩ := processTkEntry_missing idx v
          (hd v (List.mem_cons_self v rest)) hr'
        obtain ⟨cams2, errs2, hloop, hc2, he2⟩ :=
          loadCamerasLoop_spec rest (idx + 1) cams
            (errs ++ ["Skipping camera #" ++ toString idx ++ ": missing " ++ k])
            hdrest hwfrest
        refine ⟨cams2, errs2, ?_, ?_, ?_⟩
        · rw [loadCamerasLoop, hk]
          exact hloop
        · rw [hc2, show List.filter (fun v => tkRequiredOk v) (v :: rest) =
              List.filter (fun v => tkRequiredOk v) rest from by
            simp [List.filter_cons, hr']]
        · rw [he2, show List.filter (fun v => !tkRequiredOk v) (v :: rest) =
              v :: List.filter (fun v => !tkRequiredOk v) rest from by
            simp [List.filter_cons, hr']]
          simp only [List.length_append, List.length_cons, List.length_singleton,
            List.length_nil]
          omega

/-- C5: for a config whose camera entries are mappings, of which the ones
with all required fields are fully valid and exactly K are missing a
required field, `load_cameras` returns without raising, with N-K cameras
and exactly K warnings — the valid entries are never dropped because of the
malformed ones. -/
theorem c5_build_warnings (entries : List Val) (K : Nat)
    (hdict : ∀ v ∈ entries, isDictV v = true)
    (hwf : ∀ v ∈ entries, tkRequiredOk v = true → tkZoomOk v = true)
    (hK : (entries.filter (fun v => !(tkRequiredOk v))).length = K) :
    ∃ cams errs,
      load_cameras (.ok (.dict [("cameras", .list entries)])) = .ok (cams, errs) ∧
      cams.length = entries.length - K ∧ errs.length = K := by
  obtain ⟨cams, errs, hloop, hc, he⟩ := loadCamerasLoop_spec entries 1 [] [] hdict hwf
  have hsplit := length_filter_split (fun v => tkRequiredOk v)
    (fun v => !(tkRequiredOk v)) (fun x => rfl) entries
  refine ⟨cams, errs, hloop, ?_, ?_⟩
  · rw [hc]
    simp only [List.length_nil, Nat.zero_add]
    omega
  · rw [he]
    simpa using hK

/-- C5 witness: loading the three `tkEntries` (one malformed) yields two
cameras and one warning, with no exception. -/
theorem c5_build_warnings_witness :
    ∃ cams errs,
      load_cameras (.ok (.dict [("cameras", .list tkEntries)])) = .ok (cams, errs) ∧
      cams.length = 2 ∧ errs.length = 1 := by
  obtain ⟨cams, errs, h1, h2, h3⟩ :=
    c5_build_warnings tkEntries 1 (by decide) (by decide) (by decide)
  exact ⟨cams, errs, h1, by simpa using h2, h3⟩

/-! ## C7 — session reuse -/

/-- C7: on a healthy device — browser running, an existing page and context,
and both the lightweight `page.reload` and the zoom `page.evaluate`
succeeding — `connect_camera` with `refresh=true` (the source flag whose
true value corresponds to the spec's `forceRefresh=false`) returns success
and leaves both the camera's session handles and the manager state (in
particular the count of browser contexts ever created, `nextId`) unchanged;
calling it twice in a row therefore returns the same handle both times and
creates no new underlying session. -/
theorem c7_session_reuse (env : BEnv) (bst : BState) (cam : BCamera)
    (idx total : Nat) (hb : bst.browser = true) (hpage : cam.page.isSome = true)
    (hctx : cam.context.isSome = true) (hrel : env.reloadOk = true)
    (hzoom : env.zoomEvalOk = true) :
    connect_camera env bst cam idx total true =
      { success := true, message := "Refreshed " ++ cam.name, bst := bst, cam := cam } ∧
    connect_camera env (connect_camera env bst cam idx total true).bst
      (connect_camera env bst cam idx total true).cam idx total true =
      { success := true, message := "Refreshed " ++ cam.name, bst := bst, cam := cam } ∧
    (connect_camera env bst cam idx total true).bst.nextId = bst.nextId := by
  have h1 : connect_camera env bst cam idx total true =
      { success := true, message := "Refreshed " ++ cam.name, bst := bst, cam := cam } := by
    unfold connect_camera
    rw [if_neg (by simp [hb]), if_pos (by simp [hpage, hctx]),
      if_pos (by simp [hrel, hzoom])]
  exact ⟨h1, by rw [h1]; exact h1, by rw [h1]⟩

/-- C7 witness: refreshing the healthy `camVenice` twice keeps its session
handles (`context = page = 2`) and creates no new context. -/
theorem c7_session_reuse_witness :
    connect_camera envHealthy bstRunning camVenice 0 3 true =
      { success := true, message := "Refreshed " ++ camVenice.name,
        bst := bstRunning, cam := camVenice } ∧
    (connect_camera envHealthy bstRunning camVenice 0 3 true).bst.nextId = 4 := by
  have h := c7_session_reuse envHealthy bstRunning camVenice 0 3 rfl rfl rfl rfl rfl
  exact ⟨h.1, h.2.2⟩

/-! ## C9 — no credentials in the config summary -/

/-- Pointwise agreement on the public fields makes the mapped public camera
lists equal. -/
theorem map_public_eq (l l' : List Camera)
    (h : List.Forall₂ (fun c c' : Camera => c.id = c'.id ∧ c.name = c'.name ∧
      c.url = c'.url ∧ c.gui_path = c'.gui_path) l l') :
    l.map pubCam = l'.map pubCam := by
  induction h with
  | nil => rfl
  | cons hh hl ih =>
      simp only [List.map_cons, ih, List.cons.injEq, and_true]
      unfold pubCam
      rw [hh.1, hh.2.1, hh.2.2.1, hh.2.2.2]

/-- C9: the `/api/config` payload carries, per camera, only id, name and the
composed gui url (and per button only id, label, color, targets): two loaded
configs that differ only in device usernames, passwords or auth types
produce identical responses. -/
theorem c9_config_sanitized (st st' : SrvState)
    (hs : st.config.settings = st'.config.settings)
    (hc : List.Forall₂ (fun c c' : Camera => c.id = c'.id ∧ c.name = c'.name ∧
      c.url = c'.url ∧ c.gui_path = c'.gui_path)
      st.config.cameras st'.config.cameras)
    (hb : st.config.buttons = st'.config.buttons) :
    api_config st = api_config st' ∧
    (api_config st).cameras = st.config.cameras.map pubCam := by
  refine ⟨?_, rfl⟩
  unfold api_config
  rw [hs, hb]
  congr 1
  exact map_public_eq st.config.cameras st'.config.cameras hc

/-- C9 witness: two registries differing only in `camA`'s credentials and
auth type get identical `/api/config` responses. -/
theorem c9_config_sanitized_witness : api_config stPub1 = api_config stPub2 := by
  exact (c9_config_sanitized stPub1 stPub2 rfl
    (List.Forall₂.cons ⟨rfl, rfl, rfl, rfl⟩ List.Forall₂.nil) rfl).1

end MVT

